import Mathlib

/-
  Verification development for the `semanticscholar-datasetapi` repository
  (file `semanticscholar_datasetapi/api.py`, class `SemanticScholarDataset`).

  The Python class is embedded shallowly:
  * the client object is the structure `Client`; the constructor `__init__`
    (api.py lines 32-35) is `Client.init` — note that the `headers`
    attribute is only assigned when an API key is given, which is modelled
    by `headers : Option _` with `none` meaning "attribute never set";
  * the remote HTTP service and the bodies of downloaded files are an
    explicit environment `Env`: each endpoint the code can hit is a field
    giving either a parsed payload or a transport-level failure;
  * every method returns a `RunResult`: the Python return value or raised
    exception (`Except PyErr _`), the client object after the call, and the
    ordered trace of externally visible events (HTTP requests issued and
    files written);
  * JSON objects are structures whose fields are `Option`-valued: `none`
    models a JSON object lacking that key, so that Python's
    `response.get(key, default)` becomes `Option.getD`;
  * Python exceptions are the constructors of `PyErr`, one per raise site
    (the several `ValueError`s are distinguished by their messages in the
    source; each constructor is named after its message).
-/

namespace SemanticScholarDataset

/-- A byte string (file chunks and file contents). -/
abbrev Bytes := List Nat

/-- Transport-level failure of one HTTP request, as surfaced by
`requests`/`urllib3` after the configured retry policy: either a final
non-success HTTP status (raised by `raise_for_status`) or exhaustion of
the retry budget (`MaxRetryError`). -/
inductive TransportFault where
  | httpStatus (code : Nat)
  | maxRetries
deriving DecidableEq, Repr

/-- The Python exceptions the class can raise, one constructor per raise
site in `api.py`:
* `invalidDataset allowed` — `ValueError(f"Invalid dataset name. Available datasets: ...")`,
  carrying the allowed list it names (lines 85-87, 103-105, 116-118, 137-139, 164-166);
* `apiKeyRequired` — `ValueError("API key is required to access the Semantic Scholar Dataset API.")`
  (lines 80-82, 98-100);
* `specificReleaseRequired` — `ValueError("Please provide a specific release ID.")` (line 142);
* `invalidReleaseId` — `ValueError("Invalid release ID.")` (line 145);
* `noDownloadUrls` — `ValueError("No download URLs found.")` (lines 124, 151);
* `transport` — a `requests` transport exception (see `TransportFault`);
* `attrHeadersMissing` — Python `AttributeError`: `self.headers` is read but
  `__init__` only assigns it when an API key was given. -/
inductive PyErr where
  | invalidDataset (allowed : List String)
  | apiKeyRequired
  | specificReleaseRequired
  | invalidReleaseId
  | noDownloadUrls
  | transport (t : TransportFault)
  | attrHeadersMissing
deriving DecidableEq, Repr

/-- The client object: the two instance attributes touched by the class.
`headers = none` models the attribute never having been assigned. -/
structure Client where
  api_key : Option String
  headers : Option (List (String × String))
deriving DecidableEq, Repr

/-- `__init__` (api.py lines 32-35): stores the key and sets
`self.headers = {"x-api-key": api_key}` only when the key is not `None`. -/
def Client.init (api_key : Option String) : Client :=
  { api_key := api_key
    headers := api_key.map fun k => [("x-api-key", k)] }

/-- Parsed JSON body of `GET /release/{id}/dataset/{name}`; the code only
reads the `"files"` key (`response.get("files", [])`). -/
structure ReleaseResponse where
  files : Option (List String)
deriving DecidableEq, Repr

/-- One entry of the `"diffs"` array; the code reads `from_release`,
`to_release` (no default: `None` when missing), `update_files` and
`delete_files` (default `[]`). -/
structure DiffEntry where
  from_release : Option String
  to_release : Option String
  update_files : Option (List String)
  delete_files : Option (List String)
deriving DecidableEq, Repr

/-- Parsed JSON body of `GET /diffs/{s}/to/{e}/{name}`; the code only reads
the `"diffs"` key (`response.get("diffs", [])`). -/
structure DiffsResponse where
  diffs : Option (List DiffEntry)
deriving DecidableEq, Repr

/-- The remote world: for each endpoint the class can call, the parsed
response (or transport failure) the network would deliver for it, and for
each download URL the chunk sequence `iter_content` would stream. -/
structure Env where
  releases : Except TransportFault (List String)
  releaseManifest : String → String → Except TransportFault ReleaseResponse
  diffManifest : String → String → String → Except TransportFault DiffsResponse
  fileChunks : String → Except TransportFault (List Bytes)

/-- Externally visible events of one method call, in order: an API `GET`
(`__api_request`), a download `GET` (`__download_file`), or a local file
ending up written with the given full content. -/
inductive Event where
  | apiGet (url : String)
  | fileGet (url : String)
  | fileWrite (save_name : String) (content : Bytes)
deriving DecidableEq, Repr

instance instDecEqExcept {ε α : Type} [DecidableEq ε] [DecidableEq α] :
    DecidableEq (Except ε α) := fun x y =>
  match x, y with
  | .ok a, .ok b =>
    if h : a = b then .isTrue (by rw [h]) else .isFalse (fun he => h (by cases he; rfl))
  | .error a, .error b =>
    if h : a = b then .isTrue (by rw [h]) else .isFalse (fun he => h (by cases he; rfl))
  | .ok _, .error _ => .isFalse fun he => Except.noConfusion he
  | .error _, .ok _ => .isFalse fun he => Except.noConfusion he

/-- Result of running one method: Python result or exception, the client
object afterwards, and the ordered event trace. -/
structure RunResult (α : Type) where
  res : Except PyErr α
  client : Client
  events : List Event
deriving DecidableEq, Repr

/-- `BASE_URL` class attribute (api.py line 18). -/
def BASE_URL : String := "https://api.semanticscholar.org/datasets/v1"

/-- `AVAILABLE_DATASETS` class attribute (api.py lines 19-30). -/
def AVAILABLE_DATASETS : List String :=
  ["abstracts", "authors", "citations", "embeddings-specter_v1",
   "embeddings-specter_v2", "paper-ids", "papers", "publication-venues",
   "s2orc", "tldrs"]

/-- Python `str(x)` for an optional string, as used by f-strings:
`None` renders as `"None"`. -/
def pyOptStr : Option String → String
  | some s => s
  | none => "None"

/-- `datasetname not in self.AVAILABLE_DATASETS` where `datasetname` may be
Python `None` (the parameter defaults to `None`; `None` is not in a list of
strings, so it fails the membership test). -/
def datasetNotAvailable (d : Option String) : Bool :=
  match d with
  | some s => !(AVAILABLE_DATASETS.contains s)
  | none => true

def releaseListUrl : String := BASE_URL ++ "/release"

def releaseManifestUrl (release_id dataset : String) : String :=
  BASE_URL ++ "/release/" ++ release_id ++ "/dataset/" ++ dataset

def diffsManifestUrl (start_release_id end_release_id dataset : String) : String :=
  BASE_URL ++ "/diffs/" ++ start_release_id ++ "/to/" ++ end_release_id ++ "/" ++ dataset

/-- `__api_request(url)` (api.py lines 55-66) at environment level: it first
evaluates `self.headers` (an `AttributeError` if unset — no request is then
issued), performs the `GET`, and either returns the parsed body or raises
the transport failure. The per-attempt retry behaviour inside one `GET` is
modelled separately by `retrySend` below; here one `GET` is one `apiGet`
event with its final outcome. -/
def apiRequest (st : Client) (url : String) (resp : Except TransportFault α) :
    RunResult α :=
  match st.headers with
  | none => ⟨.error .attrHeadersMissing, st, []⟩
  | some _ =>
    match resp with
    | .ok v => ⟨.ok v, st, [.apiGet url]⟩
    | .error t => ⟨.error (.transport t), st, [.apiGet url]⟩

/-- The bytes that end up in the file written by `__download_file`: every
non-empty chunk, concatenated (`for chunk in r.iter_content(...): if chunk:
f.write(chunk)`, api.py lines 49-51). -/
def writtenContent (chunks : List Bytes) : Bytes :=
  (chunks.filter fun c => !c.isEmpty).flatten

/-- `__download_file(url, save_name)` (api.py lines 37-53): evaluates
`self.headers` (AttributeError if unset, before any request), performs the
streaming `GET`; `raise_for_status` / retry exhaustion surfaces as a
transport error, otherwise the file `save_name` is written with the
concatenated non-empty chunks. -/
def download_file (env : Env) (st : Client) (url save_name : String) :
    RunResult Unit :=
  match st.headers with
  | none => ⟨.error .attrHeadersMissing, st, []⟩
  | some _ =>
    match env.fileChunks url with
    | .error t => ⟨.error (.transport t), st, [.fileGet url]⟩
    | .ok chunks =>
      ⟨.ok (), st, [.fileGet url, .fileWrite save_name (writtenContent chunks)]⟩

/-- `get_available_releases()` (api.py lines 68-71). -/
def get_available_releases (env : Env) (st : Client) : RunResult (List String) :=
  apiRequest st releaseListUrl env.releases

/-- `get_available_datasets()` (api.py lines 73-74). -/
def get_available_datasets : List String := AVAILABLE_DATASETS

/-- `get_download_urls_from_release(datasetname=None, release_id="latest")`
(api.py lines 76-92): API-key check first, then dataset-name check, then
the manifest `GET`. -/
def get_download_urls_from_release (env : Env) (st : Client)
    (datasetname : Option String) (release_id : String) :
    RunResult ReleaseResponse :=
  if st.api_key = none then ⟨.error .apiKeyRequired, st, []⟩
  else if datasetNotAvailable datasetname then
    ⟨.error (.invalidDataset AVAILABLE_DATASETS), st, []⟩
  else
    apiRequest st (releaseManifestUrl release_id (pyOptStr datasetname))
      (env.releaseManifest release_id (pyOptStr datasetname))

/-- `get_download_urls_from_diffs(start_release_id=None, end_release_id="latest",
datasetname=None)` (api.py lines 94-112): API-key check first, then
dataset-name check, then the diff-manifest `GET`. No release-id validation. -/
def get_download_urls_from_diffs (env : Env) (st : Client)
    (start_release_id : Option String) (end_release_id : String)
    (datasetname : Option String) : RunResult DiffsResponse :=
  if st.api_key = none then ⟨.error .apiKeyRequired, st, []⟩
  else if datasetNotAvailable datasetname then
    ⟨.error (.invalidDataset AVAILABLE_DATASETS), st, []⟩
  else
    apiRequest st
      (diffsManifestUrl (pyOptStr start_release_id) end_release_id (pyOptStr datasetname))
      (env.diffManifest (pyOptStr start_release_id) end_release_id (pyOptStr datasetname))

/-- The `for i, url in enumerate(download_urls)` loops of the three download
methods: download each URL in order to `save_name i`, stopping at (and
propagating) the first failure. -/
def download_files (env : Env) (save_name : Nat → String) :
    Client → Nat → List String → RunResult Unit
  | st, _, [] => ⟨.ok (), st, []⟩
  | st, i, url :: rest =>
    let r := download_file env st url (save_name i)
    match r.res with
    | .error e => ⟨.error e, r.client, r.events⟩
    | .ok _ =>
      let r2 := download_files env save_name r.client (i + 1) rest
      ⟨r2.res, r2.client, r.events ++ r2.events⟩

/-- `download_latest_release(datasetname=None)` (api.py lines 114-133). -/
def download_latest_release (env : Env) (st : Client)
    (datasetname : Option String) : RunResult Unit :=
  if datasetNotAvailable datasetname then
    ⟨.error (.invalidDataset AVAILABLE_DATASETS), st, []⟩
  else
    let r := get_download_urls_from_release env st datasetname "latest"
    match r.res with
    | .error e => ⟨.error e, r.client, r.events⟩
    | .ok response =>
      let download_urls := response.files.getD []
      if download_urls = [] then ⟨.error .noDownloadUrls, r.client, r.events⟩
      else
        let d := download_files env
          (fun i => pyOptStr datasetname ++ "_latest_" ++ toString i ++ ".json.gz")
          r.client 0 download_urls
        ⟨d.res, d.client, r.events ++ d.events⟩

/-- `download_past_release(release_id, datasetname=None)` (api.py lines
135-158): dataset check, literal-"latest" check, membership of the id in
`get_available_releases()` (a network call), then manifest and downloads. -/
def download_past_release (env : Env) (st : Client) (release_id : String)
    (datasetname : Option String) : RunResult Unit :=
  if datasetNotAvailable datasetname then
    ⟨.error (.invalidDataset AVAILABLE_DATASETS), st, []⟩
  else if release_id = "latest" then ⟨.error .specificReleaseRequired, st, []⟩
  else
    let ra := get_available_releases env st
    match ra.res with
    | .error e => ⟨.error e, ra.client, ra.events⟩
    | .ok releases =>
      if !(releases.contains release_id) then
        ⟨.error .invalidReleaseId, ra.client, ra.events⟩
      else
        let r := get_download_urls_from_release env ra.client datasetname release_id
        match r.res with
        | .error e => ⟨.error e, r.client, ra.events ++ r.events⟩
        | .ok response =>
          let download_urls := response.files.getD []
          if download_urls = [] then
            ⟨.error .noDownloadUrls, r.client, ra.events ++ r.events⟩
          else
            let d := download_files env
              (fun i => pyOptStr datasetname ++ "_" ++ release_id ++ "_" ++
                toString i ++ ".json.gz")
              r.client 0 download_urls
            ⟨d.res, d.client, ra.events ++ r.events ++ d.events⟩

/-- The body of the `for diff in diffs:` loop of `download_diffs` (api.py
lines 173-187) for one entry: all `update_files` in order, then all
`delete_files` in order. -/
def download_diff_entry (env : Env) (datasetname : Option String) (st : Client)
    (diff : DiffEntry) : RunResult Unit :=
  let u := download_files env
    (fun i => pyOptStr datasetname ++ "_" ++ pyOptStr diff.from_release ++ "_" ++
      pyOptStr diff.to_release ++ "_update_" ++ toString i ++ ".json.gz")
    st 0 (diff.update_files.getD [])
  match u.res with
  | .error e => ⟨.error e, u.client, u.events⟩
  | .ok _ =>
    let d := download_files env
      (fun i => pyOptStr datasetname ++ "_" ++ pyOptStr diff.from_release ++ "_" ++
        pyOptStr diff.to_release ++ "_delete_" ++ toString i ++ ".json.gz")
      u.client 0 (diff.delete_files.getD [])
    ⟨d.res, d.client, u.events ++ d.events⟩

/-- The `for diff in diffs:` loop over all entries, in manifest order,
stopping at the first failure. -/
def download_diff_entries (env : Env) (datasetname : Option String) :
    Client → List DiffEntry → RunResult Unit
  | st, [] => ⟨.ok (), st, []⟩
  | st, diff :: rest =>
    let r := download_diff_entry env datasetname st diff
    match r.res with
    | .error e => ⟨.error e, r.client, r.events⟩
    | .ok _ =>
      let r2 := download_diff_entries env datasetname r.client rest
      ⟨r2.res, r2.client, r.events ++ r2.events⟩

/-- `download_diffs(start_release_id, end_release_id, datasetname=None)`
(api.py lines 160-189): dataset check, diff-manifest resolution, then the
entry loop. Note: no emptiness check on `diffs`. -/
def download_diffs (env : Env) (st : Client)
    (start_release_id end_release_id : String) (datasetname : Option String) :
    RunResult Unit :=
  if datasetNotAvailable datasetname then
    ⟨.error (.invalidDataset AVAILABLE_DATASETS), st, []⟩
  else
    let r := get_download_urls_from_diffs env st (some start_release_id)
      end_release_id datasetname
    match r.res with
    | .error e => ⟨.error e, r.client, r.events⟩
    | .ok response =>
      let d := download_diff_entries env datasetname r.client (response.diffs.getD [])
      ⟨d.res, d.client, r.events ++ d.events⟩

/-
  Per-attempt model of one `session.get` as configured by both
  `__download_file` and `__api_request` (api.py lines 38-44 and 56-62):

      retry = Retry(total=5, backoff_factor=0.3,
                    status_forcelist=[429, 500, 502, 503, 504])
      adapter = HTTPAdapter(max_retries=retry)

  The driver that interprets this configuration lives in the third-party
  `urllib3` library (not part of this repository), so it is modelled here
  from urllib3's documented and stable semantics of
  `urllib3.util.retry.Retry` / `HTTPConnectionPool.urlopen`:
  * `total` counts RETRIES: it is decremented on every retryable outcome
    and `MaxRetryError` is raised when it becomes negative (the initial
    attempt is not counted), so `total=5` allows up to 6 attempts in all;
  * an attempt whose response status is in `status_forcelist` is never
    returned to the caller: it is either retried or, when the budget is
    exhausted, turned into `MaxRetryError`;
  * a connection-level failure is likewise retried against the same budget;
  * an attempt with any other status is returned immediately; `requests`'
    `raise_for_status()` then raises for statuses in [400, 600).
-/

/-- Outcome of a single HTTP attempt: a response with the given status
code, or a connection-level failure. -/
inductive Attempt where
  | status (code : Nat)
  | connFailure
deriving DecidableEq, Repr

/-- What one `session.get` call produces after the retry driver finishes:
a response handed back to the caller, or `MaxRetryError`. -/
inductive SessionOutcome where
  | response (code : Nat)
  | maxRetryError
deriving DecidableEq, Repr

/-- `status_forcelist` of the `Retry` configuration (api.py lines 40, 58). -/
def status_forcelist : List Nat := [429, 500, 502, 503, 504]

/-- The urllib3 retry driver for one `session.get`, run against the ordered
per-attempt outcomes the network would deliver: returns the final outcome
together with the number of attempts actually made, or `none` when the
supplied outcome list is shorter than the attempts the driver would make.
`total` is the remaining retry budget (an `Int`, since urllib3 only raises
once the decremented budget is negative). -/
def retrySend : Int → List Attempt → Option (SessionOutcome × Nat)
  | _, [] => none
  | total, .status code :: rest =>
    if status_forcelist.contains code then
      if total - 1 < 0 then some (.maxRetryError, 1)
      else (retrySend (total - 1) rest).map fun p => (p.1, p.2 + 1)
    else some (.response code, 1)
  | total, .connFailure :: rest =>
    if total - 1 < 0 then some (.maxRetryError, 1)
    else (retrySend (total - 1) rest).map fun p => (p.1, p.2 + 1)

/-- Final outcome of one HTTP request as the class sees it, after
`raise_for_status()`: success with the status code, an `HTTPError`, or
retry exhaustion. -/
inductive RequestOutcome where
  | ok (code : Nat)
  | httpError (code : Nat)
  | retriesExhausted
deriving DecidableEq, Repr

/-- One request as issued by `__api_request` / `__download_file`: the retry
driver with the configured budget `total=5`, followed by
`raise_for_status()` (raises for statuses in [400, 600)). -/
def sessionGet (attempts : List Attempt) : Option (RequestOutcome × Nat) :=
  (retrySend 5 attempts).map fun p =>
    match p.1 with
    | .maxRetryError => (.retriesExhausted, p.2)
    | .response code =>
      if 400 ≤ code ∧ code < 600 then (.httpError code, p.2) else (.ok code, p.2)

/-
  Expected-trace vocabulary used to state the download-loop properties.
-/

/-- The event trace of a download loop in which every URL succeeds: for the
URL at 0-based position `i` (counting from the loop's starting index), one
`GET` followed by the write of `save_name i` with that URL's content. -/
def expectedDownloadEvents (save_name : Nat → String) (content : String → Bytes) :
    Nat → List String → List Event
  | _, [] => []
  | i, url :: rest =>
    .fileGet url :: .fileWrite (save_name i) (content url) ::
      expectedDownloadEvents save_name content (i + 1) rest

/-- The event trace of one fully successful diff entry: every update file
in order, then every delete file in order, with the destination names
`download_diffs` derives from the entry. -/
def expectedEntryEvents (datasetname : Option String) (content : String → Bytes)
    (diff : DiffEntry) : List Event :=
  expectedDownloadEvents
    (fun i => pyOptStr datasetname ++ "_" ++ pyOptStr diff.from_release ++ "_" ++
      pyOptStr diff.to_release ++ "_update_" ++ toString i ++ ".json.gz")
    content 0 (diff.update_files.getD []) ++
  expectedDownloadEvents
    (fun i => pyOptStr datasetname ++ "_" ++ pyOptStr diff.from_release ++ "_" ++
      pyOptStr diff.to_release ++ "_delete_" ++ toString i ++ ".json.gz")
    content 0 (diff.delete_files.getD [])

/-
  Concrete environments used to instantiate hypotheses in witnesses and
  counterexamples.
-/

/-- A benign environment: no releases, manifests without their payload key,
empty downloads. -/
def env0 : Env :=
  { releases := .ok []
    releaseManifest := fun _ _ => .ok ⟨none⟩
    diffManifest := fun _ _ _ => .ok ⟨none⟩
    fileChunks := fun _ => .ok [] }

/-- Environment whose diff manifest has an explicit empty `diffs` list. -/
def envEmptyDiffs : Env :=
  { env0 with diffManifest := fun _ _ _ => .ok ⟨some []⟩ }

/-- Environment serving a three-file latest manifest for `papers`, one
known release `2024-01-01` with a two-file manifest, and per-URL bodies. -/
def envSample : Env :=
  { releases := .ok ["2024-01-01"]
    releaseManifest := fun release_id d =>
      if d = "papers" ∧ release_id = "latest" then .ok ⟨some ["u0", "u1", "u2"]⟩
      else if d = "papers" ∧ release_id = "2024-01-01" then .ok ⟨some ["p0", "p1"]⟩
      else .ok ⟨none⟩
    diffManifest := fun s e d =>
      if d = "papers" ∧ s = "2024-01-01" ∧ e = "2024-02-01" then
        .ok ⟨some [{ from_release := some "2024-01-01", to_release := some "2024-02-01",
                     update_files := some ["du0", "du1"], delete_files := some ["dd0"] }]⟩
      else .ok ⟨none⟩
    fileChunks := fun u =>
      if u = "bad" then .error .maxRetries
      else .ok [[7], [], [8, 9]] }

/-- Environment like `envSample` but whose latest `papers` manifest ends in
a URL whose download fails. -/
def envSampleBad : Env :=
  { envSample with
    releaseManifest := fun release_id d =>
      if d = "papers" ∧ release_id = "latest" then .ok ⟨some ["u0", "bad", "u2"]⟩
      else .ok ⟨none⟩ }

/-- Environment serving a manifest for a release id that is NOT in the
release list (used to show no release-id validation happens in
`get_download_urls_from_release`). -/
def envUnknownRelease : Env :=
  { env0 with
    releases := .ok ["2024-01-01"]
    releaseManifest := fun release_id d =>
      if d = "papers" ∧ release_id = "2099-12-31" then .ok ⟨some ["x0"]⟩
      else .ok ⟨none⟩ }

/-- Environment where every manifest resolves to an explicitly empty list
and one release exists. -/
def envAllEmpty : Env :=
  { releases := .ok ["2024-01-01"]
    releaseManifest := fun _ _ => .ok ⟨some []⟩
    diffManifest := fun _ _ _ => .ok ⟨some []⟩
    fileChunks := fun _ => .ok [] }

/-
  General lemmas about the download loops, shared by several claims.
-/

theorem writtenContent_eq_flatten (chunks : List Bytes) :
    writtenContent chunks = chunks.flatten := by
  induction chunks with
  | nil => rfl
  | cons c rest ih =>
    by_cases hc : c.isEmpty
    · have hce : c = [] := by
        cases c with
        | nil => rfl
        | cons x xs => simp [List.isEmpty] at hc
      simp [writtenContent, hce] at ih ⊢
      exact ih
    · simp [writtenContent, hc] at ih ⊢
      exact ih

theorem download_file_client (env : Env) (st : Client) (url save_name : String) :
    (download_file env st url save_name).client = st := by
  unfold download_file
  split
  · rfl
  · split <;> rfl

theorem download_files_client (env : Env) (save_name : Nat → String) :
    ∀ (urls : List String) (st : Client) (i : Nat),
      (download_files env save_name st i urls).client = st := by
  intro urls
  induction urls with
  | nil => intro st i; rfl
  | cons url rest ih =>
    intro st i
    unfold download_files
    cases hr : (download_file env st url (save_name i)).res with
    | error e =>
      simp only [hr]
      exact download_file_client env st url (save_name i)
    | ok v =>
      simp only [hr]
      have h1 := download_file_client env st url (save_name i)
      simp only [h1]
      exact ih st (i + 1)

theorem download_files_all_ok (env : Env) (save_name : Nat → String)
    (chunks : String → List Bytes) :
    ∀ (urls : List String) (st : Client) (hd : List (String × String)) (i : Nat),
      st.headers = some hd →
      (∀ u ∈ urls, env.fileChunks u = .ok (chunks u)) →
      download_files env save_name st i urls =
        ⟨.ok (), st,
          expectedDownloadEvents save_name (fun u => writtenContent (chunks u)) i urls⟩ := by
  intro urls
  induction urls with
  | nil =>
    intro st hd i hh _
    simp [download_files, expectedDownloadEvents]
  | cons url rest ih =>
    intro st hd i hh hok
    have h1 : env.fileChunks url = .ok (chunks url) := hok url (by simp)
    have ih' := ih st hd (i + 1) hh (fun u hu => hok u (by simp [hu]))
    simp [download_files, download_file, hh, h1, ih', expectedDownloadEvents]

theorem download_files_first_fail (env : Env) (save_name : Nat → String)
    (chunks : String → List Bytes) (bad : String) (t : TransportFault) :
    ∀ (pre : List String) (post : List String) (st : Client)
      (hd : List (String × String)) (i : Nat),
      st.headers = some hd →
      (∀ u ∈ pre, env.fileChunks u = .ok (chunks u)) →
      env.fileChunks bad = .error t →
      download_files env save_name st i (pre ++ bad :: post) =
        ⟨.error (.transport t), st,
          expectedDownloadEvents save_name (fun u => writtenContent (chunks u)) i pre ++
            [.fileGet bad]⟩ := by
  intro pre
  induction pre with
  | nil =>
    intro post st hd i hh _ hbad
    simp [download_files, download_file, hh, hbad, expectedDownloadEvents]
  | cons url rest ih =>
    intro post st hd i hh hok hbad
    have h1 : env.fileChunks url = .ok (chunks url) := hok url (by simp)
    have ih' := ih post st hd (i + 1) hh (fun u hu => hok u (by simp [hu])) hbad
    simp [download_files, download_file, hh, h1, ih', expectedDownloadEvents]

theorem download_diff_entry_client (env : Env) (d : Option String) (st : Client)
    (diff : DiffEntry) : (download_diff_entry env d st diff).client = st := by
  simp only [download_diff_entry]
  split <;> simp [download_files_client]

theorem download_diff_entries_client (env : Env) (d : Option String) :
    ∀ (entries : List DiffEntry) (st : Client),
      (download_diff_entries env d st entries).client = st := by
  intro entries
  induction entries with
  | nil => intro st; rfl
  | cons a rest ih =>
    intro st
    simp only [download_diff_entries]
    split <;> simp [download_diff_entry_client, ih]

theorem download_diff_entry_ok (env : Env) (d : Option String)
    (chunks : String → List Bytes) (st : Client) (hd : List (String × String))
    (diff : DiffEntry) (hh : st.headers = some hd)
    (hu : ∀ u ∈ diff.update_files.getD [], env.fileChunks u = .ok (chunks u))
    (hdel : ∀ u ∈ diff.delete_files.getD [], env.fileChunks u = .ok (chunks u)) :
    download_diff_entry env d st diff =
      ⟨.ok (), st, expectedEntryEvents d (fun u => writtenContent (chunks u)) diff⟩ := by
  have h1 := download_files_all_ok env
    (fun i => pyOptStr d ++ "_" ++ pyOptStr diff.from_release ++ "_" ++
      pyOptStr diff.to_release ++ "_update_" ++ toString i ++ ".json.gz")
    chunks (diff.update_files.getD []) st hd 0 hh hu
  have h2 := download_files_all_ok env
    (fun i => pyOptStr d ++ "_" ++ pyOptStr diff.from_release ++ "_" ++
      pyOptStr diff.to_release ++ "_delete_" ++ toString i ++ ".json.gz")
    chunks (diff.delete_files.getD []) st hd 0 hh hdel
  simp [download_diff_entry, expectedEntryEvents, h1, h2]

theorem download_diff_entries_ok (env : Env) (d : Option String)
    (chunks : String → List Bytes) (hd : List (String × String)) :
    ∀ (entries : List DiffEntry) (st : Client),
      st.headers = some hd →
      (∀ diff ∈ entries,
        (∀ u ∈ diff.update_files.getD [], env.fileChunks u = .ok (chunks u)) ∧
        (∀ u ∈ diff.delete_files.getD [], env.fileChunks u = .ok (chunks u))) →
      download_diff_entries env d st entries =
        ⟨.ok (), st,
          (entries.map (expectedEntryEvents d (fun u => writtenContent (chunks u)))).flatten⟩ := by
  intro entries
  induction entries with
  | nil =>
    intro st hh _
    simp [download_diff_entries]
  | cons a rest ih =>
    intro st hh hok
    have ha := hok a (by simp)
    have h1 := download_diff_entry_ok env d chunks st hd a hh ha.1 ha.2
    have ih' := ih st hh (fun diff hdiff => hok diff (by simp [hdiff]))
    simp [download_diff_entries, h1, ih']

theorem download_diff_entries_fail (env : Env) (d : Option String)
    (bad : DiffEntry) (e : PyErr) :
    ∀ (pre post : List DiffEntry) (st : Client),
      (∀ diff ∈ pre, (download_diff_entry env d st diff).res = .ok ()) →
      (download_diff_entry env d st bad).res = .error e →
      download_diff_entries env d st (pre ++ bad :: post) =
        ⟨.error e, st,
          (pre.map (fun diff => (download_diff_entry env d st diff).events)).flatten ++
            (download_diff_entry env d st bad).events⟩ := by
  intro pre
  induction pre with
  | nil =>
    intro post st _ hbad
    have hc := download_diff_entry_client env d st bad
    simp [download_diff_entries, hbad, hc]
  | cons a rest ih =>
    intro post st hok hbad
    have ha : (download_diff_entry env d st a).res = .ok () := hok a (by simp)
    have hc := download_diff_entry_client env d st a
    have ih' := ih post st (fun diff hdiff => hok diff (by simp [hdiff])) hbad
    simp [download_diff_entries, ha, hc, ih']

theorem contains_true_of_mem {l : List String} {a : String} (h : a ∈ l) :
    l.contains a = true := by
  simpa using h

theorem contains_false_of_not_mem {l : List String} {a : String} (h : a ∉ l) :
    l.contains a = false := by
  simpa using h

theorem datasetNotAvailable_false {d : String} (hd : d ∈ AVAILABLE_DATASETS) :
    datasetNotAvailable (some d) = false := by
  simp [datasetNotAvailable, hd]

/-
  Lemmas about the retry driver.
-/

theorem retrySend_attempts_le :
    ∀ (l : List Attempt) (t : Int) (r : SessionOutcome) (n : Nat),
      0 ≤ t → retrySend t l = some (r, n) → n ≤ t.toNat + 1 := by
  intro l
  induction l with
  | nil => intro t r n _ h; simp [retrySend] at h
  | cons a rest ih =>
    intro t r n ht h
    cases a with
    | status code =>
      simp only [retrySend] at h
      split at h
      · split at h
        · injection h with h'
          injection h' with h1 h2
          omega
        · rename_i hlt
          rw [Option.map_eq_some'] at h
          obtain ⟨⟨s, m⟩, hp, hpn⟩ := h
          injection hpn with h1 h2
          have hle := ih (t - 1) s m (by omega) hp
          omega
      · injection h with h'
        injection h' with h1 h2
        omega
    | connFailure =>
      simp only [retrySend] at h
      split at h
      · injection h with h'
        injection h' with h1 h2
        omega
      · rename_i hlt
        rw [Option.map_eq_some'] at h
        obtain ⟨⟨s, m⟩, hp, hpn⟩ := h
        injection hpn with h1 h2
        have hle := ih (t - 1) s m (by omega) hp
        omega

theorem retrySend_exhausted_attempts :
    ∀ (l : List Attempt) (t : Int) (n : Nat),
      0 ≤ t → retrySend t l = some (.maxRetryError, n) → n = t.toNat + 1 := by
  intro l
  induction l with
  | nil => intro t n _ h; simp [retrySend] at h
  | cons a rest ih =>
    intro t n ht h
    cases a with
    | status code =>
      simp only [retrySend] at h
      split at h
      · split at h
        · rename_i hlt
          injection h with h'
          injection h' with h1 h2
          omega
        · rename_i hlt
          rw [Option.map_eq_some'] at h
          obtain ⟨⟨s, m⟩, hp, hpn⟩ := h
          dsimp only at hpn
          injection hpn with h1 h2
          rw [h1] at hp
          have := ih (t - 1) m (by omega) hp
          omega
      · injection h with h'
        injection h' with h1 h2
        injection h1
    | connFailure =>
      simp only [retrySend] at h
      split at h
      · rename_i hlt
        injection h with h'
        injection h' with h1 h2
        omega
      · rename_i hlt
        rw [Option.map_eq_some'] at h
        obtain ⟨⟨s, m⟩, hp, hpn⟩ := h
        dsimp only at hpn
        injection hpn with h1 h2
        rw [h1] at hp
        have := ih (t - 1) m (by omega) hp
        omega

theorem sessionGet_attempts_le (l : List Attempt) (r : RequestOutcome) (n : Nat)
    (h : sessionGet l = some (r, n)) : n ≤ 6 := by
  simp only [sessionGet, Option.map_eq_some'] at h
  obtain ⟨⟨s, m⟩, hp, hpn⟩ := h
  have hle := retrySend_attempts_le l 5 s m (by omega) hp
  have hn : n = m := by
    cases s with
    | maxRetryError =>
      dsimp only at hpn
      injection hpn with h1 h2
      omega
    | response code =>
      dsimp only at hpn
      split at hpn <;> (injection hpn with h1 h2; omega)
  omega

theorem sessionGet_exhausted_attempts (l : List Attempt) (n : Nat)
    (h : sessionGet l = some (.retriesExhausted, n)) : n = 6 := by
  simp only [sessionGet, Option.map_eq_some'] at h
  obtain ⟨⟨s, m⟩, hp, hpn⟩ := h
  cases s with
  | maxRetryError =>
    dsimp only at hpn
    injection hpn with h1 h2
    have := retrySend_exhausted_attempts l 5 m (by omega) hp
    omega
  | response code =>
    dsimp only at hpn
    split at hpn <;> (injection hpn with h1 h2; injection h1)

theorem sessionGet_non_retryable (code : Nat)
    (h : status_forcelist.contains code = false) (rest : List Attempt) :
    (sessionGet (.status code :: rest)).map Prod.snd = some 1 := by
  have hr : retrySend 5 (.status code :: rest) = some (.response code, 1) := by
    simp only [retrySend]
    rw [if_neg (by simpa using h)]
  by_cases hcode : 400 ≤ code ∧ code < 600 <;>
    simp [sessionGet, hr, hcode]

/-
  Client-preservation lemmas: no method body ever assigns to `self`.
-/

theorem apiRequest_client {α : Type} (st : Client) (url : String)
    (resp : Except TransportFault α) : (apiRequest st url resp).client = st := by
  unfold apiRequest
  split
  · rfl
  · split <;> rfl

theorem get_available_releases_client (env : Env) (st : Client) :
    (get_available_releases env st).client = st :=
  apiRequest_client st releaseListUrl env.releases

theorem get_download_urls_from_release_client (env : Env) (st : Client)
    (dn : Option String) (rid : String) :
    (get_download_urls_from_release env st dn rid).client = st := by
  unfold get_download_urls_from_release
  split
  · rfl
  · split
    · rfl
    · exact apiRequest_client st _ _

theorem get_download_urls_from_diffs_client (env : Env) (st : Client)
    (srid : Option String) (erid : String) (dn : Option String) :
    (get_download_urls_from_diffs env st srid erid dn).client = st := by
  unfold get_download_urls_from_diffs
  split
  · rfl
  · split
    · rfl
    · exact apiRequest_client st _ _

theorem download_latest_release_client (env : Env) (st : Client)
    (dn : Option String) : (download_latest_release env st dn).client = st := by
  simp only [download_latest_release]
  repeat' split
  all_goals
    simp [get_download_urls_from_release_client, download_files_client]

theorem download_past_release_client (env : Env) (st : Client) (rid : String)
    (dn : Option String) : (download_past_release env st rid dn).client = st := by
  simp only [download_past_release]
  repeat' split
  all_goals
    simp [get_available_releases_client, get_download_urls_from_release_client,
      download_files_client]

theorem download_diffs_client (env : Env) (st : Client) (srid erid : String)
    (dn : Option String) : (download_diffs env st srid erid dn).client = st := by
  simp only [download_diffs]
  repeat' split
  all_goals
    simp [get_download_urls_from_diffs_client, download_diff_entries_client]

/-
  The claims.
-/

/-- C1 counterexample. The claim says every operation accepting a dataset
name fails with `InvalidArgument` on an unknown name regardless of whether
a credential is configured. It fails: `get_download_urls_from_release`
checks the API key BEFORE the dataset name (api.py lines 79-87), so on a
credential-less client an invalid dataset name raises the API-key
`ValueError` (`AuthRequired`), not the invalid-dataset one — though indeed
no network call is issued. -/
theorem claim1_counterexample :
    get_download_urls_from_release env0 (Client.init none) (some "bogus") "latest" =
      ⟨.error .apiKeyRequired, Client.init none, []⟩ ∧
    (get_download_urls_from_release env0 (Client.init none) (some "bogus") "latest").res ≠
      .error (.invalidDataset AVAILABLE_DATASETS) := by
  exact ⟨rfl, by decide⟩

/-- C1 amended: for every dataset name not in `AVAILABLE_DATASETS`, every
operation accepting a dataset name fails without issuing any network call;
`download_latest_release`, `download_past_release` and `download_diffs`
fail with `InvalidArgument` (the `ValueError` naming the allowed set)
regardless of credential, while `get_download_urls_from_release` and
`get_download_urls_from_diffs` fail with `InvalidArgument` only when a
credential is configured — on a credential-less client their API-key check
comes first and they fail with `AuthRequired` instead (still with no
network call). -/
theorem claim1_theorem (env : Env) (key : Option String) (d : Option String)
    (hd : datasetNotAvailable d = true) (rid srid erid : String) (k : String) :
    download_latest_release env (Client.init key) d =
      ⟨.error (.invalidDataset AVAILABLE_DATASETS), Client.init key, []⟩ ∧
    download_past_release env (Client.init key) rid d =
      ⟨.error (.invalidDataset AVAILABLE_DATASETS), Client.init key, []⟩ ∧
    download_diffs env (Client.init key) srid erid d =
      ⟨.error (.invalidDataset AVAILABLE_DATASETS), Client.init key, []⟩ ∧
    get_download_urls_from_release env (Client.init (some k)) d rid =
      ⟨.error (.invalidDataset AVAILABLE_DATASETS), Client.init (some k), []⟩ ∧
    get_download_urls_from_diffs env (Client.init (some k)) (some srid) erid d =
      ⟨.error (.invalidDataset AVAILABLE_DATASETS), Client.init (some k), []⟩ ∧
    get_download_urls_from_release env (Client.init none) d rid =
      ⟨.error .apiKeyRequired, Client.init none, []⟩ ∧
    get_download_urls_from_diffs env (Client.init none) (some srid) erid d =
      ⟨.error .apiKeyRequired, Client.init none, []⟩ := by
  refine ⟨?_, ?_, ?_, ?_, ?_, ?_, ?_⟩ <;>
    simp [download_latest_release, download_past_release, download_diffs,
      get_download_urls_from_release, get_download_urls_from_diffs,
      Client.init, hd]

/-- C1 witness: the amended theorem applied at a concrete unknown dataset
name on both a keyed and an unkeyed client. -/
theorem claim1_witness :
    download_latest_release env0 (Client.init none) (some "bogus") =
      ⟨.error (.invalidDataset AVAILABLE_DATASETS), Client.init none, []⟩ ∧
    get_download_urls_from_release env0 (Client.init (some "k")) (some "bogus") "latest" =
      ⟨.error (.invalidDataset AVAILABLE_DATASETS), Client.init (some "k"), []⟩ := by
  have h := claim1_theorem env0 none (some "bogus") (by decide) "r" "s" "latest" "k"
  exact ⟨h.1, h.2.2.2.1⟩

/-- C2 counterexample. The claim says a resolved manifest with zero diffs
makes the operation fail with `EmptyResult` rather than silently
completing. It fails: `download_diffs` has no emptiness check (api.py
lines 171-189) — with a credentialed client, a valid dataset and a diff
manifest whose `diffs` list is empty, it completes successfully after the
single manifest request. -/
theorem claim2_counterexample :
    download_diffs envEmptyDiffs (Client.init (some "k")) "2024-01-01" "2024-02-01"
      (some "papers") =
      ⟨.ok (), Client.init (some "k"),
        [.apiGet (diffsManifestUrl "2024-01-01" "2024-02-01" "papers")]⟩ := by
  rfl

/-- C2 amended: for a valid dataset name, `download_latest_release` and
`download_past_release` fail with `EmptyResult` (`ValueError("No download
URLs found.")`) when the resolved manifest contains zero files; the
resolution operation itself (`get_download_urls_from_release`) returns the
empty manifest as a success, and `download_diffs` with zero diffs
completes successfully with no downloads and no error. -/
theorem claim2_theorem (env : Env) (k d rid s e : String) (rl : List String)
    (hd : d ∈ AVAILABLE_DATASETS)
    (hrl : env.releases = .ok rl) (hmem : rid ∈ rl) (hne : rid ≠ "latest")
    (hlat : env.releaseManifest "latest" d = .ok ⟨some []⟩)
    (hpast : env.releaseManifest rid d = .ok ⟨some []⟩)
    (hdiff : env.diffManifest s e d = .ok ⟨some []⟩) :
    download_latest_release env (Client.init (some k)) (some d) =
      ⟨.error .noDownloadUrls, Client.init (some k),
        [.apiGet (releaseManifestUrl "latest" d)]⟩ ∧
    download_past_release env (Client.init (some k)) rid (some d) =
      ⟨.error .noDownloadUrls, Client.init (some k),
        [.apiGet releaseListUrl, .apiGet (releaseManifestUrl rid d)]⟩ ∧
    get_download_urls_from_release env (Client.init (some k)) (some d) "latest" =
      ⟨.ok ⟨some []⟩, Client.init (some k),
        [.apiGet (releaseManifestUrl "latest" d)]⟩ ∧
    download_diffs env (Client.init (some k)) s e (some d) =
      ⟨.ok (), Client.init (some k), [.apiGet (diffsManifestUrl s e d)]⟩ := by
  have hdn := datasetNotAvailable_false hd
  refine ⟨?_, ?_, ?_, ?_⟩ <;>
    simp [download_latest_release, download_past_release, download_diffs,
      get_download_urls_from_release, get_download_urls_from_diffs,
      get_available_releases, apiRequest, Client.init, hdn, hne, hrl, hmem,
      contains_true_of_mem hmem, hlat, hpast, hdiff, pyOptStr,
      download_diff_entries]

/-- C2 witness: the amended theorem at a concrete environment whose
manifests are all explicitly empty. -/
theorem claim2_witness :
    download_latest_release envAllEmpty (Client.init (some "k")) (some "papers") =
      ⟨.error .noDownloadUrls, Client.init (some "k"),
        [.apiGet (releaseManifestUrl "latest" "papers")]⟩ ∧
    download_diffs envAllEmpty (Client.init (some "k")) "2024-01-01" "latest"
      (some "papers") =
      ⟨.ok (), Client.init (some "k"),
        [.apiGet (diffsManifestUrl "2024-01-01" "latest" "papers")]⟩ := by
  have h := claim2_theorem envAllEmpty "k" "papers" "2024-01-01" "2024-01-01" "latest"
    ["2024-01-01"] (by decide) rfl (by decide) (by decide) rfl rfl rfl
  exact ⟨h.1, h.2.2.2⟩

/-- C3 counterexample. The claim says `download_past_release` on a
credential-less client fails with `AuthRequired` and nothing else. It
fails: before any credential check, `download_past_release` validates the
release id via `get_available_releases` (api.py line 144), whose
`__api_request` evaluates `self.headers` — an attribute `__init__` never
set on a key-less client — so the call dies with `AttributeError` (no
network request is issued, since the attribute access precedes the GET). -/
theorem claim3_counterexample :
    download_past_release env0 (Client.init none) "2024-12-31" (some "papers") =
      ⟨.error .attrHeadersMissing, Client.init none, []⟩ ∧
    (download_past_release env0 (Client.init none) "2024-12-31" (some "papers")).res ≠
      .error .apiKeyRequired := by
  exact ⟨rfl, by decide⟩

/-- C3 amended: on a client constructed without an API key,
`get_download_urls_from_release`, `get_download_urls_from_diffs` and
`download_latest_release` (which requires the credential through the
former) fail with `AuthRequired` before any network call,
deterministically in their inputs; `download_past_release` (with a valid
dataset and a non-"latest" id) instead fails, also deterministically and
also before any network call, with Python `AttributeError`: its
release-id validation reads the `headers` attribute that the constructor
only sets when a key is given. -/
theorem claim3_theorem (env : Env) (d : String) (hd : d ∈ AVAILABLE_DATASETS)
    (anyd : Option String) (rid srid erid : String) (hne : rid ≠ "latest") :
    get_download_urls_from_release env (Client.init none) anyd rid =
      ⟨.error .apiKeyRequired, Client.init none, []⟩ ∧
    get_download_urls_from_diffs env (Client.init none) (some srid) erid anyd =
      ⟨.error .apiKeyRequired, Client.init none, []⟩ ∧
    download_latest_release env (Client.init none) (some d) =
      ⟨.error .apiKeyRequired, Client.init none, []⟩ ∧
    download_past_release env (Client.init none) rid (some d) =
      ⟨.error .attrHeadersMissing, Client.init none, []⟩ := by
  have hdn := datasetNotAvailable_false hd
  refine ⟨?_, ?_, ?_, ?_⟩ <;>
    simp [download_latest_release, download_past_release,
      get_download_urls_from_release, get_download_urls_from_diffs,
      get_available_releases, apiRequest, Client.init, hdn, hne]

/-- C3 witness: the amended theorem at a concrete dataset and release id. -/
theorem claim3_witness :
    download_latest_release env0 (Client.init none) (some "papers") =
      ⟨.error .apiKeyRequired, Client.init none, []⟩ ∧
    download_past_release env0 (Client.init none) "2024-12-31" (some "papers") =
      ⟨.error .attrHeadersMissing, Client.init none, []⟩ := by
  have h := claim3_theorem env0 "papers" (by decide) none "2024-12-31" "s" "latest"
    (by decide)
  exact ⟨h.2.2.1, h.2.2.2⟩

/-- C4 counterexample. The claim says the retry policy makes at most 5
attempts. It fails: `Retry(total=5)` budgets five RETRIES after the
initial attempt (urllib3 decrements `total` per retried attempt and only
raises once it is negative), so a sequence of five 503 responses followed
by a success still succeeds — after 6 attempts. -/
theorem claim4_counterexample :
    sessionGet [.status 503, .status 503, .status 503, .status 503, .status 503,
      .status 200] = some (.ok 200, 6) := by
  decide

/-- C4 amended: the per-request policy configured by
`Retry(total=5, backoff_factor=0.3, status_forcelist=[429,500,502,503,504])`
makes at most 6 attempts (the initial attempt plus up to 5 retries),
retrying only on the forcelist statuses or connection failures: 4 failures
with status 503 followed by a success yield overall success after exactly
5 attempts; a single response with a non-retryable status such as 400
ends the request after exactly 1 attempt (an `HTTPError` for 4xx/5xx);
and exhaustion (`MaxRetryError`, a `TransportError`) happens only after
all 6 attempts were spent on retryable failures. -/
theorem claim4_theorem :
    sessionGet [.status 503, .status 503, .status 503, .status 503, .status 200] =
      some (.ok 200, 5) ∧
    sessionGet [.status 400] = some (.httpError 400, 1) ∧
    (∀ (l : List Attempt) (r : RequestOutcome) (n : Nat),
      sessionGet l = some (r, n) → n ≤ 6) ∧
    (∀ (code : Nat), status_forcelist.contains code = false →
      ∀ (rest : List Attempt),
        (sessionGet (.status code :: rest)).map Prod.snd = some 1) ∧
    (∀ (l : List Attempt) (n : Nat),
      sessionGet l = some (.retriesExhausted, n) → n = 6) :=
  ⟨by decide, by decide, sessionGet_attempts_le, sessionGet_non_retryable,
    sessionGet_exhausted_attempts⟩

/-- C4 witness: the attempt-bound conjunct of the amended theorem applied
to the concrete single-400 run. -/
theorem claim4_witness :
    sessionGet [.status 400] = some (.httpError 400, 1) ∧ (1 : Nat) ≤ 6 :=
  ⟨by decide, claim4_theorem.2.2.1 [.status 400] (.httpError 400) 1 (by decide)⟩

/-- C5: with a valid dataset name and a nonempty resolved manifest,
`download_latest_release` (and `download_past_release`) download the
manifest URLs strictly in manifest order, writing for the i-th URL exactly
`{dataset}_latest_{i}.json.gz` (resp. `{dataset}_{releaseId}_{i}.json.gz`)
with the concatenation of that URL's streamed chunks as content; naming is
a function of the arguments alone (the embedding is deterministic), and
— for both operations — the first failing download propagates its
transport error, leaving every later URL unattempted (no further
`fileGet`/`fileWrite` events). -/
theorem claim5_theorem :
    (∀ (env : Env) (k d : String) (urls : List String)
        (chunks : String → List Bytes),
      d ∈ AVAILABLE_DATASETS →
      env.releaseManifest "latest" d = .ok ⟨some urls⟩ →
      urls ≠ [] →
      (∀ u ∈ urls, env.fileChunks u = .ok (chunks u)) →
      download_latest_release env (Client.init (some k)) (some d) =
        ⟨.ok (), Client.init (some k),
          .apiGet (releaseManifestUrl "latest" d) ::
            expectedDownloadEvents
              (fun i => d ++ "_latest_" ++ toString i ++ ".json.gz")
              (fun u => (chunks u).flatten) 0 urls⟩) ∧
    (∀ (env : Env) (k d rid : String) (rl urls : List String)
        (chunks : String → List Bytes),
      d ∈ AVAILABLE_DATASETS →
      env.releases = .ok rl → rid ∈ rl → rid ≠ "latest" →
      env.releaseManifest rid d = .ok ⟨some urls⟩ →
      urls ≠ [] →
      (∀ u ∈ urls, env.fileChunks u = .ok (chunks u)) →
      download_past_release env (Client.init (some k)) rid (some d) =
        ⟨.ok (), Client.init (some k),
          .apiGet releaseListUrl :: .apiGet (releaseManifestUrl rid d) ::
            expectedDownloadEvents
              (fun i => d ++ "_" ++ rid ++ "_" ++ toString i ++ ".json.gz")
              (fun u => (chunks u).flatten) 0 urls⟩) ∧
    (∀ (env : Env) (k d : String) (pre post : List String) (bad : String)
        (chunks : String → List Bytes) (t : TransportFault),
      d ∈ AVAILABLE_DATASETS →
      env.releaseManifest "latest" d = .ok ⟨some (pre ++ bad :: post)⟩ →
      (∀ u ∈ pre, env.fileChunks u = .ok (chunks u)) →
      env.fileChunks bad = .error t →
      download_latest_release env (Client.init (some k)) (some d) =
        ⟨.error (.transport t), Client.init (some k),
          .apiGet (releaseManifestUrl "latest" d) ::
            (expectedDownloadEvents
              (fun i => d ++ "_latest_" ++ toString i ++ ".json.gz")
              (fun u => (chunks u).flatten) 0 pre ++ [.fileGet bad])⟩) ∧
    (∀ (env : Env) (k d rid : String) (rl : List String) (pre post : List String)
        (bad : String) (chunks : String → List Bytes) (t : TransportFault),
      d ∈ AVAILABLE_DATASETS →
      env.releases = .ok rl → rid ∈ rl → rid ≠ "latest" →
      env.releaseManifest rid d = .ok ⟨some (pre ++ bad :: post)⟩ →
      (∀ u ∈ pre, env.fileChunks u = .ok (chunks u)) →
      env.fileChunks bad = .error t →
      download_past_release env (Client.init (some k)) rid (some d) =
        ⟨.error (.transport t), Client.init (some k),
          .apiGet releaseListUrl :: .apiGet (releaseManifestUrl rid d) ::
            (expectedDownloadEvents
              (fun i => d ++ "_" ++ rid ++ "_" ++ toString i ++ ".json.gz")
              (fun u => (chunks u).flatten) 0 pre ++ [.fileGet bad])⟩) := by
  refine ⟨?_, ?_, ?_, ?_⟩
  · intro env k d urls chunks hd hm hne hok
    have hdn := datasetNotAvailable_false hd
    have hdl := download_files_all_ok env
      (fun i => d ++ "_latest_" ++ toString i ++ ".json.gz") chunks urls
      (Client.init (some k)) [("x-api-key", k)] 0 rfl hok
    simp [Client.init] at hdl
    simp [download_latest_release, get_download_urls_from_release, apiRequest,
      Client.init, hdn, hm, hne, hdl, writtenContent_eq_flatten, pyOptStr]
  · intro env k d rid rl urls chunks hd hrl hmem hne hm hurls hok
    have hdn := datasetNotAvailable_false hd
    have hdl := download_files_all_ok env
      (fun i => d ++ "_" ++ rid ++ "_" ++ toString i ++ ".json.gz") chunks urls
      (Client.init (some k)) [("x-api-key", k)] 0 rfl hok
    simp [Client.init] at hdl
    simp [download_past_release, get_download_urls_from_release,
      get_available_releases, apiRequest, Client.init, hdn, hne, hrl, hmem,
      contains_true_of_mem hmem, hm, hurls, hdl, writtenContent_eq_flatten,
      pyOptStr]
  · intro env k d pre post bad chunks t hd hm hok hbad
    have hdn := datasetNotAvailable_false hd
    have hdl := download_files_first_fail env
      (fun i => d ++ "_latest_" ++ toString i ++ ".json.gz") chunks bad t pre post
      (Client.init (some k)) [("x-api-key", k)] 0 rfl hok hbad
    simp [Client.init] at hdl
    simp [download_latest_release, get_download_urls_from_release, apiRequest,
      Client.init, hdn, hm, hdl, writtenContent_eq_flatten, pyOptStr]
  · intro env k d rid rl pre post bad chunks t hd hrl hmem hne hm hok hbad
    have hdn := datasetNotAvailable_false hd
    have hdl := download_files_first_fail env
      (fun i => d ++ "_" ++ rid ++ "_" ++ toString i ++ ".json.gz") chunks bad t
      pre post (Client.init (some k)) [("x-api-key", k)] 0 rfl hok hbad
    simp [Client.init] at hdl
    simp [download_past_release, get_download_urls_from_release,
      get_available_releases, apiRequest, Client.init, hdn, hne, hrl, hmem,
      contains_true_of_mem hmem, hm, hdl, writtenContent_eq_flatten, pyOptStr]

/-- C5 witness: the success conjunct at a concrete three-URL manifest for
`papers` — exactly the three expected destination names, in order, each
with the concatenated chunk content. -/
theorem claim5_witness :
    download_latest_release envSample (Client.init (some "k")) (some "papers") =
      ⟨.ok (), Client.init (some "k"),
        [.apiGet (releaseManifestUrl "latest" "papers"),
         .fileGet "u0", .fileWrite "papers_latest_0.json.gz" [7, 8, 9],
         .fileGet "u1", .fileWrite "papers_latest_1.json.gz" [7, 8, 9],
         .fileGet "u2", .fileWrite "papers_latest_2.json.gz" [7, 8, 9]]⟩ := by
  have h := claim5_theorem.1 envSample "k" "papers" ["u0", "u1", "u2"]
    (fun _ => [[7], [], [8, 9]]) (by decide) (by decide) (by decide) (by decide)
  simpa [expectedDownloadEvents] using h

/-- C6: `download_diffs` processes the diff entries strictly in manifest
order; within an entry every update-file URL is downloaded (to
`{dataset}_{from}_{to}_update_{i}.json.gz`) before every delete-file URL
(to `{dataset}_{from}_{to}_delete_{i}.json.gz`), indices 0-based per
group, `from`/`to` taken from the entry's `from_release`/`to_release`;
a failure on any file of an entry aborts everything after it — the trace
ends with that entry's partial events and no event of any later entry. -/
theorem claim6_theorem :
    (∀ (env : Env) (k d s e : String) (entries : List DiffEntry)
        (chunks : String → List Bytes),
      d ∈ AVAILABLE_DATASETS →
      env.diffManifest s e d = .ok ⟨some entries⟩ →
      (∀ diff ∈ entries,
        (∀ u ∈ diff.update_files.getD [], env.fileChunks u = .ok (chunks u)) ∧
        (∀ u ∈ diff.delete_files.getD [], env.fileChunks u = .ok (chunks u))) →
      download_diffs env (Client.init (some k)) s e (some d) =
        ⟨.ok (), Client.init (some k),
          .apiGet (diffsManifestUrl s e d) ::
            (entries.map
              (expectedEntryEvents (some d) (fun u => (chunks u).flatten))).flatten⟩) ∧
    (∀ (env : Env) (k d s e : String) (pre post : List DiffEntry) (bad : DiffEntry)
        (chunks : String → List Bytes) (er : PyErr),
      d ∈ AVAILABLE_DATASETS →
      env.diffManifest s e d = .ok ⟨some (pre ++ bad :: post)⟩ →
      (∀ diff ∈ pre,
        (∀ u ∈ diff.update_files.getD [], env.fileChunks u = .ok (chunks u)) ∧
        (∀ u ∈ diff.delete_files.getD [], env.fileChunks u = .ok (chunks u))) →
      (download_diff_entry env (some d) (Client.init (some k)) bad).res = .error er →
      download_diffs env (Client.init (some k)) s e (some d) =
        ⟨.error er, Client.init (some k),
          .apiGet (diffsManifestUrl s e d) ::
            ((pre.map
              (expectedEntryEvents (some d) (fun u => (chunks u).flatten))).flatten ++
              (download_diff_entry env (some d) (Client.init (some k)) bad).events)⟩) := by
  constructor
  · intro env k d s e entries chunks hd hm hok
    have hdn := datasetNotAvailable_false hd
    have h1 := download_diff_entries_ok env (some d) chunks [("x-api-key", k)]
      entries (Client.init (some k)) rfl hok
    simp [Client.init] at h1
    simp [download_diffs, get_download_urls_from_diffs, apiRequest, Client.init,
      hdn, hm, h1, writtenContent_eq_flatten, pyOptStr]
  · intro env k d s e pre post bad chunks er hd hm hok hbad
    have hdn := datasetNotAvailable_false hd
    have hpre : ∀ diff ∈ pre,
        (download_diff_entry env (some d) (Client.init (some k)) diff).res = .ok () := by
      intro diff hdiff
      rw [download_diff_entry_ok env (some d) chunks (Client.init (some k))
        [("x-api-key", k)] diff rfl (hok diff hdiff).1 (hok diff hdiff).2]
    have hmap : pre.map
          (fun diff => (download_diff_entry env (some d) (Client.init (some k)) diff).events)
        = pre.map (expectedEntryEvents (some d) (fun u => writtenContent (chunks u))) := by
      apply List.map_congr_left
      intro diff hdiff
      rw [download_diff_entry_ok env (some d) chunks (Client.init (some k))
        [("x-api-key", k)] diff rfl (hok diff hdiff).1 (hok diff hdiff).2]
    have hfail := download_diff_entries_fail env (some d) bad er pre post
      (Client.init (some k)) hpre hbad
    rw [hmap] at hfail
    simp [Client.init] at hfail
    simp [download_diffs, get_download_urls_from_diffs, apiRequest, Client.init,
      hdn, hm, hfail, writtenContent_eq_flatten, pyOptStr]

/-- C6 witness: the success conjunct at the concrete one-entry diff
manifest of `envSample` (2 update files, then 1 delete file, in order). -/
theorem claim6_witness :
    download_diffs envSample (Client.init (some "k")) "2024-01-01" "2024-02-01"
      (some "papers") =
      ⟨.ok (), Client.init (some "k"),
        [.apiGet (diffsManifestUrl "2024-01-01" "2024-02-01" "papers"),
         .fileGet "du0",
         .fileWrite "papers_2024-01-01_2024-02-01_update_0.json.gz" [7, 8, 9],
         .fileGet "du1",
         .fileWrite "papers_2024-01-01_2024-02-01_update_1.json.gz" [7, 8, 9],
         .fileGet "dd0",
         .fileWrite "papers_2024-01-01_2024-02-01_delete_0.json.gz" [7, 8, 9]]⟩ := by
  have h := claim6_theorem.1 envSample "k" "papers" "2024-01-01" "2024-02-01"
    [⟨some "2024-01-01", some "2024-02-01", some ["du0", "du1"], some ["dd0"]⟩]
    (fun _ => [[7], [], [8, 9]]) (by decide) (by decide) (by decide)
  simpa [expectedEntryEvents, expectedDownloadEvents, pyOptStr] using h

/-- C7 counterexample. The claim says every operation accepting an explicit
release id validates it against `get_available_releases` before the
manifest request. It fails: `get_download_urls_from_release` performs no
such validation (api.py lines 76-92) — with a release id absent from the
environment's release list, it succeeds after a single manifest `GET` and
never touches the releases endpoint. -/
theorem claim7_counterexample :
    get_download_urls_from_release envUnknownRelease (Client.init (some "k"))
      (some "papers") "2099-12-31" =
      ⟨.ok ⟨some ["x0"]⟩, Client.init (some "k"),
        [.apiGet (releaseManifestUrl "2099-12-31" "papers")]⟩ ∧
    envUnknownRelease.releases = .ok ["2024-01-01"] ∧
    ("2099-12-31" : String) ∉ (["2024-01-01"] : List String) := by
  exact ⟨rfl, rfl, by decide⟩

/-- C7 amended: only `download_past_release` validates an explicit release
id — it rejects the literal "latest" locally with `InvalidArgument` and
any id absent from `get_available_releases()`'s current result with
`InvalidArgument` after that one release-list round-trip, all before any
manifest request; `get_download_urls_from_release` and
`get_download_urls_from_diffs` perform no release-id validation at all and
send any id straight to their manifest endpoint in a single request. -/
theorem claim7_theorem :
    (∀ (env : Env) (k d : String), d ∈ AVAILABLE_DATASETS →
      download_past_release env (Client.init (some k)) "latest" (some d) =
        ⟨.error .specificReleaseRequired, Client.init (some k), []⟩) ∧
    (∀ (env : Env) (k d rid : String) (rl : List String), d ∈ AVAILABLE_DATASETS →
      rid ≠ "latest" → env.releases = .ok rl → rid ∉ rl →
      download_past_release env (Client.init (some k)) rid (some d) =
        ⟨.error .invalidReleaseId, Client.init (some k), [.apiGet releaseListUrl]⟩) ∧
    (∀ (env : Env) (k d rid : String) (resp : ReleaseResponse),
      d ∈ AVAILABLE_DATASETS →
      env.releaseManifest rid d = .ok resp →
      get_download_urls_from_release env (Client.init (some k)) (some d) rid =
        ⟨.ok resp, Client.init (some k), [.apiGet (releaseManifestUrl rid d)]⟩) ∧
    (∀ (env : Env) (k d srid erid : String) (resp : DiffsResponse),
      d ∈ AVAILABLE_DATASETS →
      env.diffManifest srid erid d = .ok resp →
      get_download_urls_from_diffs env (Client.init (some k)) (some srid) erid
        (some d) =
        ⟨.ok resp, Client.init (some k),
          [.apiGet (diffsManifestUrl srid erid d)]⟩) := by
  refine ⟨?_, ?_, ?_, ?_⟩
  · intro env k d hd
    have hdn := datasetNotAvailable_false hd
    simp [download_past_release, hdn]
  · intro env k d rid rl hd hne hrl hni
    have hdn := datasetNotAvailable_false hd
    simp [download_past_release, get_available_releases, apiRequest, Client.init,
      hdn, hne, hrl, contains_false_of_not_mem hni, hni]
  · intro env k d rid resp hd hm
    have hdn := datasetNotAvailable_false hd
    simp [get_download_urls_from_release, apiRequest, Client.init, hdn, hm,
      pyOptStr]
  · intro env k d srid erid resp hd hm
    have hdn := datasetNotAvailable_false hd
    simp [get_download_urls_from_diffs, apiRequest, Client.init, hdn, hm,
      pyOptStr]

/-- C7 witness: the "latest"-rejection conjunct at concrete inputs. -/
theorem claim7_witness :
    download_past_release env0 (Client.init (some "k")) "latest" (some "papers") =
      ⟨.error .specificReleaseRequired, Client.init (some "k"), []⟩ :=
  claim7_theorem.1 env0 "k" "papers" (by decide)

/-- C8: the claim says `get_available_releases` works for every client,
with or without a credential, returning the remote's release list with
`TransportError` as its only failure mode. The code violates it: on a
key-less client, `__api_request` evaluates `self.headers`, which
`__init__` (api.py lines 32-35) never assigned, so the call raises
`AttributeError` before issuing the GET — while the repository's own
example driver (`example.py`) constructs the client with a possibly-`None`
key and calls `get_available_releases` on it. With a credential the
claimed behaviour holds, as the second conjunct shows. -/
theorem claim8_theorem :
    get_available_releases env0 (Client.init none) =
      ⟨.error .attrHeadersMissing, Client.init none, []⟩ ∧
    ∀ (env : Env) (k : String),
      get_available_releases env (Client.init (some k)) =
        ⟨env.releases.mapError .transport, Client.init (some k),
          [.apiGet releaseListUrl]⟩ := by
  refine ⟨rfl, ?_⟩
  intro env k
  cases h : env.releases <;>
    simp [get_available_releases, apiRequest, Client.init, h, Except.mapError]

/-- C9: no method ever mutates the client object: after any call,
successful or failing, the client equals the one built at construction
(in particular `api_key` and `headers` are unchanged), so — the embedding
being a pure function of client and environment — repeated sequential
calls behave like calls on a freshly constructed client with the same
credential. -/
theorem claim9_theorem (env : Env) (key : Option String) (anyd : Option String)
    (rid srid erid : String) :
    (get_available_releases env (Client.init key)).client = Client.init key ∧
    (get_download_urls_from_release env (Client.init key) anyd rid).client =
      Client.init key ∧
    (get_download_urls_from_diffs env (Client.init key) (some srid) erid anyd).client =
      Client.init key ∧
    (download_latest_release env (Client.init key) anyd).client = Client.init key ∧
    (download_past_release env (Client.init key) rid anyd).client = Client.init key ∧
    (download_diffs env (Client.init key) srid erid anyd).client = Client.init key :=
  ⟨get_available_releases_client env _,
   get_download_urls_from_release_client env _ anyd rid,
   get_download_urls_from_diffs_client env _ (some srid) erid anyd,
   download_latest_release_client env _ anyd,
   download_past_release_client env _ rid anyd,
   download_diffs_client env _ srid erid anyd⟩

/-- C10: manifest responses with missing keys behave exactly like empty
sequences: a resolution response without a `files` key is treated by both
`download_latest_release` and `download_past_release` like one with an
empty files list (same run, ending in the no-URLs error); a diffs response
without a `diffs` key is treated as zero entries (the call completes with
only the manifest request and no error); and an entry lacking
`update_files` or `delete_files` behaves like one with an explicit empty
group there. -/
theorem claim10_theorem :
    (∀ (env : Env) (st : Client) (dn : Option String),
      download_latest_release { env with releaseManifest := fun _ _ => .ok ⟨none⟩ } st dn =
        download_latest_release { env with releaseManifest := fun _ _ => .ok ⟨some []⟩ } st dn) ∧
    (∀ (env : Env) (k d : String), d ∈ AVAILABLE_DATASETS →
      env.releaseManifest "latest" d = .ok ⟨none⟩ →
      (download_latest_release env (Client.init (some k)) (some d)).res =
        .error .noDownloadUrls) ∧
    (∀ (env : Env) (st : Client) (s e : String) (dn : Option String),
      download_diffs { env with diffManifest := fun _ _ _ => .ok ⟨none⟩ } st s e dn =
        download_diffs { env with diffManifest := fun _ _ _ => .ok ⟨some []⟩ } st s e dn) ∧
    (∀ (env : Env) (k d s e : String), d ∈ AVAILABLE_DATASETS →
      env.diffManifest s e d = .ok ⟨none⟩ →
      download_diffs env (Client.init (some k)) s e (some d) =
        ⟨.ok (), Client.init (some k), [.apiGet (diffsManifestUrl s e d)]⟩) ∧
    (∀ (env : Env) (dn : Option String) (st : Client) (fr toR : Option String)
        (dels : Option (List String)),
      download_diff_entry env dn st ⟨fr, toR, none, dels⟩ =
        download_diff_entry env dn st ⟨fr, toR, some [], dels⟩) ∧
    (∀ (env : Env) (dn : Option String) (st : Client) (fr toR : Option String)
        (ups : Option (List String)),
      download_diff_entry env dn st ⟨fr, toR, ups, none⟩ =
        download_diff_entry env dn st ⟨fr, toR, ups, some []⟩) ∧
    (∀ (env : Env) (st : Client) (rid : String) (dn : Option String),
      download_past_release { env with releaseManifest := fun _ _ => .ok ⟨none⟩ }
          st rid dn =
        download_past_release { env with releaseManifest := fun _ _ => .ok ⟨some []⟩ }
          st rid dn) ∧
    (∀ (env : Env) (k d rid : String) (rl : List String),
      d ∈ AVAILABLE_DATASETS →
      env.releases = .ok rl → rid ∈ rl → rid ≠ "latest" →
      env.releaseManifest rid d = .ok ⟨none⟩ →
      (download_past_release env (Client.init (some k)) rid (some d)).res =
        .error .noDownloadUrls) := by
  refine ⟨?_, ?_, ?_, ?_, ?_, ?_, ?_, ?_⟩
  · intro env st dn
    cases hdn : datasetNotAvailable dn
    · cases hk : st.api_key with
      | none =>
        simp [download_latest_release, get_download_urls_from_release, hdn, hk]
      | some a =>
        cases hh : st.headers <;>
          simp [download_latest_release, get_download_urls_from_release, apiRequest,
            hdn, hk, hh]
    · simp [download_latest_release, hdn]
  · intro env k d hd hm
    have hdn := datasetNotAvailable_false hd
    simp [download_latest_release, get_download_urls_from_release, apiRequest,
      Client.init, hdn, hm, pyOptStr]
  · intro env st s e dn
    cases hdn : datasetNotAvailable dn
    · cases hk : st.api_key with
      | none =>
        simp [download_diffs, get_download_urls_from_diffs, hdn, hk]
      | some a =>
        cases hh : st.headers <;>
          simp [download_diffs, get_download_urls_from_diffs, apiRequest, hdn, hk,
            hh, download_diff_entries]
    · simp [download_diffs, hdn]
  · intro env k d s e hd hm
    have hdn := datasetNotAvailable_false hd
    simp [download_diffs, get_download_urls_from_diffs, apiRequest, Client.init,
      hdn, hm, pyOptStr, download_diff_entries]
  · intro env dn st fr toR dels
    rfl
  · intro env dn st fr toR ups
    rfl
  · intro env st rid dn
    cases hdn : datasetNotAvailable dn
    · by_cases hrid : rid = "latest"
      · simp [download_past_release, hdn, hrid]
      · cases hh : st.headers with
        | none =>
          simp [download_past_release, get_available_releases, apiRequest, hdn,
            hrid, hh]
        | some hdrs =>
          cases hrel : env.releases with
          | error t =>
            simp [download_past_release, get_available_releases, apiRequest,
              hdn, hrid, hh, hrel]
          | ok rl =>
            by_cases hc : rid ∈ rl
            · cases hk : st.api_key with
              | none =>
                simp [download_past_release, get_available_releases,
                  get_download_urls_from_release, apiRequest, hdn, hrid, hh,
                  hrel, hc, hk]
              | some a =>
                simp [download_past_release, get_available_releases,
                  get_download_urls_from_release, apiRequest, hdn, hrid, hh,
                  hrel, hc, hk]
            · simp [download_past_release, get_available_releases, apiRequest,
                hdn, hrid, hh, hrel, hc]
    · simp [download_past_release, hdn]
  · intro env k d rid rl hd hrl hmem hne hm
    have hdn := datasetNotAvailable_false hd
    simp [download_past_release, get_download_urls_from_release,
      get_available_releases, apiRequest, Client.init, hdn, hne, hrl, hmem,
      contains_true_of_mem hmem, hm, pyOptStr]

/-- C10 witness: the three hypothesis-carrying conjuncts at concrete
environments whose manifests lack the relevant key. -/
theorem claim10_witness :
    (download_latest_release env0 (Client.init (some "k")) (some "papers")).res =
      .error .noDownloadUrls ∧
    download_diffs env0 (Client.init (some "k")) "2024-01-01" "latest" (some "papers") =
      ⟨.ok (), Client.init (some "k"),
        [.apiGet (diffsManifestUrl "2024-01-01" "latest" "papers")]⟩ ∧
    (download_past_release envUnknownRelease (Client.init (some "k")) "2024-01-01"
      (some "papers")).res = .error .noDownloadUrls :=
  ⟨claim10_theorem.2.1 env0 "k" "papers" (by decide) rfl,
   claim10_theorem.2.2.2.1 env0 "k" "papers" "2024-01-01" "latest" (by decide) rfl,
   claim10_theorem.2.2.2.2.2.2.2 envUnknownRelease "k" "papers" "2024-01-01"
     ["2024-01-01"] (by decide) (by decide) (by decide) (by decide) (by decide)⟩

end SemanticScholarDataset
